import Mathlib

/-!
Verification of the secret-cache / file-watcher core of `src/app/server.js`.

The JavaScript module keeps an in-memory cache of a secret value that is
read from a file mounted by a CSI driver, watches the mount directory for
rotation events, and serves the value through a few HTTP endpoints.  We
embed the cache state, the filesystem outcomes visible to one call, and
each operation as pure Lean functions, and prove the spec's claims about
them.
-/

/-- Process environment as read at module load:
`process.env.NODE_ENV === 'test'` and
`process.env.SECRET_PATH || "/mnt/secrets-store/my-secret"`. -/
structure Env where
  nodeEnvTest : Bool
  secretPath : String
  deriving DecidableEq, Repr

/-- The default secret path from `server.js` line 7. -/
def defaultSecretPath : String := "/mnt/secrets-store/my-secret"

/-- The outcome of the filesystem calls a single operation can make.
`readFile` is the content `fs.readFileSync(SECRET_PATH, "utf8")` returns
(`none` when the call throws: missing file, permission, any I/O error);
`statMtime` is the ISO mtime `fs.statSync(SECRET_PATH)` reports (`none`
when the stat throws); `rootExists` is `fs.existsSync('/mnt/secrets-store')`;
`secretPathExists` is `fs.existsSync(SECRET_PATH)`; `realPath` is what
`fs.realpathSync(SECRET_PATH)` returns (`none` when it throws). -/
structure FS where
  readFile : Option String
  statMtime : Option String
  rootExists : Bool
  secretPathExists : Bool
  realPath : Option String
  deriving DecidableEq, Repr

/-- The mutable module-level cache `secretCache` of `server.js` lines 10-14.
The initial object has no `fileModified` property; we model the absent
field as `none`. -/
structure SecretCache where
  value : Option String
  lastUpdated : Option String
  fileModified : Option String
  watcherActive : Bool
  deriving DecidableEq, Repr

/-- The initial cache `{ value: null, lastUpdated: null, watcherActive: false }`. -/
def initialCache : SecretCache :=
  { value := none, lastUpdated := none, fileModified := none, watcherActive := false }

/-- The fallback placeholder returned in test mode or when the secret root
directory is absent (`server.js` line 36). -/
def TEST_SECRET_VALUE : String := "TEST_SECRET_VALUE"

/-- The unavailable sentinel returned on other read failures
(`server.js` line 40). -/
def SECRET_NOT_AVAILABLE : String := "SECRET_NOT_AVAILABLE"

/-- JavaScript's `String.prototype.trim()`: strips whitespace from both
ends of the string (defined over the character list so that it evaluates
inside the kernel). -/
def jsTrim (s : String) : String :=
  String.mk (((s.toList.dropWhile Char.isWhitespace).reverse.dropWhile
    Char.isWhitespace).reverse)

/-- `readSecretFromDisk()` (`server.js` lines 19-42): reads and trims the
file, stats it, and on success replaces the whole cache record (carrying
`watcherActive` over); on any failure it leaves the cache untouched and
returns the placeholder when `NODE_ENV === 'test'` or the secret root
directory does not exist, and the sentinel otherwise.  `now` is the ISO
timestamp `new Date().toISOString()` of this call. -/
def readSecretFromDisk (env : Env) (fs : FS) (now : String) (c : SecretCache) :
    String × SecretCache :=
  match fs.readFile, fs.statMtime with
  | some content, some mtime =>
      let value := jsTrim content
      (value,
       { value := some value, lastUpdated := some now,
         fileModified := some mtime, watcherActive := c.watcherActive })
  | _, _ =>
      if env.nodeEnvTest || !fs.rootExists then (TEST_SECRET_VALUE, c)
      else (SECRET_NOT_AVAILABLE, c)

/-- `getSecret()` (`server.js` lines 100-103): always a fresh read. -/
def getSecret (env : Env) (fs : FS) (now : String) (c : SecretCache) :
    String × SecretCache :=
  readSecretFromDisk env fs now c

/-- The JSON body of `GET /trigger-reload` (`server.js` lines 159-170). -/
structure ReloadResponse where
  changed : Bool
  oldValue : Option String
  newValue : String
  timestamp : String
  deriving DecidableEq, Repr

/-- The `/trigger-reload` handler: captures the cached value, reloads, and
reports whether the cached value differs from the returned string
(`oldValue !== newValue`, where the cached value may still be `null`). -/
def triggerReload (env : Env) (fs : FS) (now : String) (c : SecretCache) :
    ReloadResponse × SecretCache :=
  let oldValue := c.value
  let r := readSecretFromDisk env fs now c
  ({ changed := oldValue != some r.1, oldValue := oldValue,
     newValue := r.1, timestamp := now }, r.2)

/-- The JSON body of `GET /secret-info` (`server.js` lines 131-157):
either the reduced `exists:false, mode:"fallback"` record, the full
record, or the caught-error `500` response. -/
inductive SecretInfoResult where
  | fallback (value : String) (path : String)
  | full (value : String) (path : String) (realPath : String) (isSymlink : Bool)
      (fileModified : String) (cacheLastUpdated : Option String) (watcherActive : Bool)
  | error
  deriving DecidableEq, Repr

/-- The `/secret-info` handler: when the path does not exist it returns the
reduced record with a fresh `getSecret()` value; otherwise it stats and
resolves the real path (either throwing lands in the `catch` that sends a
`500` error response without touching the cache), then reads fresh and
reports the post-read cache metadata. -/
def secretInfo (env : Env) (fs : FS) (now : String) (c : SecretCache) :
    SecretInfoResult × SecretCache :=
  if !fs.secretPathExists then
    let r := getSecret env fs now c
    (.fallback r.1 env.secretPath, r.2)
  else
    match fs.statMtime, fs.realPath with
    | some mtime, some rp =>
        let r := getSecret env fs now c
        (.full r.1 env.secretPath rp (rp != env.secretPath) mtime
           r.2.lastUpdated r.2.watcherActive, r.2)
    | _, _ => (.error, c)

/-- The watcher's event filter (`server.js` line 71):
`filename === 'my-secret' || filename === '..data'`. -/
def eventQualifies (filename : String) : Bool :=
  filename == "my-secret" || filename == "..data"

/-- The effect of one delivered watch event on the cache: a qualifying
event schedules the debounced callback, which performs a fresh read
(`server.js` lines 70-86); any other event does nothing. -/
def watchEventStep (env : Env) (fs : FS) (now : String) (filename : String)
    (c : SecretCache) : SecretCache :=
  if eventQualifies filename then (readSecretFromDisk env fs now c).2 else c

/-- The last path component of a string path: the characters after the
final `/` (the whole string when there is none). -/
def baseName (p : String) : String :=
  String.mk ((p.toList.reverse.takeWhile (fun c => c != '/')).reverse)

/-- Modelled from the spec: the event filter as §4.2 of the spec words it,
qualifying exactly the base filename of the *configured* secret path and
the atomic-swap marker entry.  This is the refinement target the code's
`eventQualifies` is compared against. -/
def specQualifies (secretPath filename : String) : Bool :=
  filename == baseName secretPath || filename == "..data"

/-- The process state the watcher setup acts on: the cache plus how many
`fs.watch` handles have been installed. -/
structure WatcherState where
  cache : SecretCache
  installedWatches : Nat
  deriving DecidableEq, Repr

/-- `setupFileWatcher()` (`server.js` lines 48-95): no-op when already
active, in test mode, or when the watch directory is missing; otherwise
installs a watch (`installOk` models whether `fs.watch` succeeds — on
failure the error is caught, logged, and nothing changes). -/
def setupFileWatcher (env : Env) (fs : FS) (installOk : Bool)
    (s : WatcherState) : WatcherState :=
  if s.cache.watcherActive then s
  else if env.nodeEnvTest then s
  else if !fs.rootExists then s
  else if installOk then
    { cache := { s.cache with watcherActive := true },
      installedWatches := s.installedWatches + 1 }
  else s

/-- One externally triggered operation on the process, each carrying the
filesystem outcome and timestamp observed by that call. -/
inductive Op where
  | opGet (fs : FS) (now : String)
  | opInfo (fs : FS) (now : String)
  | opReload (fs : FS) (now : String)
  | opSetup (fs : FS) (installOk : Bool)
  | opWatchEvent (fs : FS) (now : String) (filename : String)

/-- The state transition of a single operation. -/
def stepOp (env : Env) (s : WatcherState) : Op → WatcherState
  | .opGet fs now => { s with cache := (getSecret env fs now s.cache).2 }
  | .opInfo fs now => { s with cache := (secretInfo env fs now s.cache).2 }
  | .opReload fs now => { s with cache := (triggerReload env fs now s.cache).2 }
  | .opSetup fs installOk => setupFileWatcher env fs installOk s
  | .opWatchEvent fs now filename =>
      { s with cache := watchEventStep env fs now filename s.cache }

/-- Running a sequence of operations from a state. -/
def runOps (env : Env) (ops : List Op) (s : WatcherState) : WatcherState :=
  ops.foldl (stepOp env) s

/-- Whether an operation's filesystem outcome makes any read it performs
fail (so no `readSecretFromDisk` success is possible during it). -/
def opReadFails : Op → Bool
  | .opGet fs _ => fs.readFile.isNone || fs.statMtime.isNone
  | .opInfo fs _ => fs.readFile.isNone || fs.statMtime.isNone
  | .opReload fs _ => fs.readFile.isNone || fs.statMtime.isNone
  | .opSetup _ _ => true
  | .opWatchEvent fs _ _ => fs.readFile.isNone || fs.statMtime.isNone

/-- A production environment with the default path. -/
def envProd : Env := { nodeEnvTest := false, secretPath := defaultSecretPath }

/-- A test environment with the default path. -/
def envTest : Env := { nodeEnvTest := true, secretPath := defaultSecretPath }

/-- A filesystem with no secret backend at all. -/
def fsEmpty : FS :=
  { readFile := none, statMtime := none, rootExists := false,
    secretPathExists := false, realPath := none }

/-- A filesystem where the root directory exists but the secret file is
missing. -/
def fsNoFile : FS :=
  { readFile := none, statMtime := none, rootExists := true,
    secretPathExists := false, realPath := none }

/-- A filesystem where `existsSync` sees the path but the stat and
realpath calls fail (e.g. the file vanished between the calls). -/
def fsStatFails : FS :=
  { readFile := none, statMtime := none, rootExists := true,
    secretPathExists := true, realPath := none }

/-- A healthy filesystem serving the content `"abc123\n"`. -/
def fsAbc : FS :=
  { readFile := some "abc123\n", statMtime := some "2026-01-01T00:00:00Z",
    rootExists := true, secretPathExists := true,
    realPath := some "/mnt/secrets-store/..data/my-secret" }

/-- On any read failure the cache is left untouched (the `catch` branch of
`readSecretFromDisk` never assigns `secretCache`). -/
theorem readFail_cache_unchanged (env : Env) (fs : FS) (now : String)
    (c : SecretCache) (h : fs.readFile = none ∨ fs.statMtime = none) :
    (readSecretFromDisk env fs now c).2 = c := by
  unfold readSecretFromDisk
  rcases hr : fs.readFile with _ | content <;>
    rcases hs : fs.statMtime with _ | mtime <;>
      simp_all <;> split <;> rfl

/-- On any read failure the returned string is the placeholder when in
test mode or when the root directory is absent, and the sentinel
otherwise. -/
theorem readFail_result (env : Env) (fs : FS) (now : String) (c : SecretCache)
    (h : fs.readFile = none ∨ fs.statMtime = none) :
    (readSecretFromDisk env fs now c).1 =
      (if env.nodeEnvTest || !fs.rootExists then TEST_SECRET_VALUE
       else SECRET_NOT_AVAILABLE) := by
  unfold readSecretFromDisk
  rcases hr : fs.readFile with _ | content <;>
    rcases hs : fs.statMtime with _ | mtime <;>
      cases hb : (env.nodeEnvTest || !fs.rootExists) <;> simp_all

/-- On a successful read the whole result is determined by the content,
the mtime, the timestamp, and the carried-over watcher flag. -/
theorem read_success (env : Env) (fs : FS) (now : String) (c : SecretCache)
    (content mtime : String) (hr : fs.readFile = some content)
    (hs : fs.statMtime = some mtime) :
    readSecretFromDisk env fs now c =
      (jsTrim content,
       { value := some (jsTrim content), lastUpdated := some now,
         fileModified := some mtime, watcherActive := c.watcherActive }) := by
  unfold readSecretFromDisk
  rw [hr, hs]

/-- C2 (confirmed): every `readSecretFromDisk` call either succeeds and
replaces `value`, `lastUpdated` and `fileModified` together as one new
record, or fails, leaves the previously cached record completely
untouched, and returns the fallback placeholder or the unavailable
sentinel. -/
theorem readSecretFromDisk_atomic_or_untouched (env : Env) (fs : FS)
    (now : String) (c : SecretCache) :
    (∃ content mtime, fs.readFile = some content ∧ fs.statMtime = some mtime ∧
        readSecretFromDisk env fs now c =
          (jsTrim content,
           { value := some (jsTrim content), lastUpdated := some now,
             fileModified := some mtime, watcherActive := c.watcherActive }))
    ∨ ((readSecretFromDisk env fs now c).2 = c ∧
        ((readSecretFromDisk env fs now c).1 = TEST_SECRET_VALUE ∨
         (readSecretFromDisk env fs now c).1 = SECRET_NOT_AVAILABLE)) := by
  rcases hr : fs.readFile with _ | content
  · right
    refine ⟨readFail_cache_unchanged env fs now c (Or.inl hr), ?_⟩
    rw [readFail_result env fs now c (Or.inl hr)]
    split <;> simp
  · rcases hs : fs.statMtime with _ | mtime
    · right
      refine ⟨readFail_cache_unchanged env fs now c (Or.inr hs), ?_⟩
      rw [readFail_result env fs now c (Or.inr hs)]
      split <;> simp
    · exact Or.inl ⟨content, mtime, rfl, rfl, read_success env fs now c content mtime hr hs⟩

/-- C10 (confirmed): every `readSecretFromDisk` call, successful or
failed, leaves `watcherActive` unchanged — a successful reload builds the
new record with the existing `watcherActive` carried over. -/
theorem readSecretFromDisk_preserves_watcherActive (env : Env) (fs : FS)
    (now : String) (c : SecretCache) :
    ((readSecretFromDisk env fs now c).2).watcherActive = c.watcherActive := by
  unfold readSecretFromDisk
  rcases hr : fs.readFile with _ | content <;>
    rcases hs : fs.statMtime with _ | mtime <;>
      cases hb : (env.nodeEnvTest || !fs.rootExists) <;> simp_all

/-- C8 (confirmed): when the secret file exists with content
`"abc123\n"` (and the stat succeeds), `getSecret()` returns `"abc123"` —
the content with surrounding whitespace trimmed. -/
theorem getSecret_trims_content (env : Env) (fs : FS) (now : String)
    (c : SecretCache) (hr : fs.readFile = some "abc123\n")
    (hs : fs.statMtime.isSome) :
    (getSecret env fs now c).1 = "abc123" := by
  rcases Option.isSome_iff_exists.mp hs with ⟨mtime, hm⟩
  show (readSecretFromDisk env fs now c).1 = "abc123"
  rw [read_success env fs now c "abc123\n" mtime hr hm]
  show jsTrim "abc123\n" = "abc123"
  decide

/-- Witness for C8 at the healthy filesystem `fsAbc`. -/
theorem getSecret_trims_content_witness :
    (getSecret envProd fsAbc "t" initialCache).1 = "abc123" :=
  getSecret_trims_content envProd fsAbc "t" initialCache (by decide) (by decide)

/-- C1 counterexample: with no secret file present, a `readSecretFromDisk`
followed by a `triggerReload` under the very same (unchanged) filesystem
reports `changed = true`, because the failed read never stores the
placeholder into the cache while the reload compares the still-`null`
cached value against the returned placeholder string. -/
theorem triggerReload_changed_after_failed_read :
    (triggerReload envTest fsEmpty "t2"
        (readSecretFromDisk envTest fsEmpty "t1" initialCache).2).1.changed = true := by
  decide

/-- C1 amended: calling `readSecretFromDisk` twice with no underlying
file change yields an identical returned value and identical cached
`fileModified` both times; and when the prior read *succeeded*, a
`triggerReload` under the same unchanged file reports `changed = false`
with `oldValue` equal to `newValue`. -/
theorem reload_idempotent_and_triggerReload_unchanged (env : Env) (fs : FS)
    (now₁ now₂ : String) (c : SecretCache) :
    ((readSecretFromDisk env fs now₂ (readSecretFromDisk env fs now₁ c).2).1 =
        (readSecretFromDisk env fs now₁ c).1
      ∧ ((readSecretFromDisk env fs now₂ (readSecretFromDisk env fs now₁ c).2).2).fileModified =
        ((readSecretFromDisk env fs now₁ c).2).fileModified)
    ∧ (fs.readFile.isSome ∧ fs.statMtime.isSome →
        (triggerReload env fs now₂ (readSecretFromDisk env fs now₁ c).2).1.changed = false
        ∧ (triggerReload env fs now₂ (readSecretFromDisk env fs now₁ c).2).1.oldValue =
            some ((triggerReload env fs now₂ (readSecretFromDisk env fs now₁ c).2).1.newValue)) := by
  unfold triggerReload readSecretFromDisk
  rcases hr : fs.readFile with _ | content <;>
    rcases hs : fs.statMtime with _ | mtime <;>
      cases hb : (env.nodeEnvTest || !fs.rootExists) <;> simp_all

/-- Witness for the amended C1 at the healthy filesystem `fsAbc`. -/
theorem reload_idempotent_witness :
    (triggerReload envProd fsAbc "t2"
        (readSecretFromDisk envProd fsAbc "t1" initialCache).2).1.changed = false :=
  ((reload_idempotent_and_triggerReload_unchanged envProd fsAbc "t1" "t2"
      initialCache).2 (by decide)).1

/-- C3 counterexample: when the secret path is missing but the root
directory `/mnt/secrets-store` exists and the process is not in test
mode, the reduced `exists:false` record carries the unavailable sentinel,
not the fixed fallback placeholder. -/
theorem secretInfo_missing_path_sentinel_value :
    (secretInfo envProd fsNoFile "t" initialCache).1 =
      SecretInfoResult.fallback SECRET_NOT_AVAILABLE defaultSecretPath
    ∧ SECRET_NOT_AVAILABLE ≠ TEST_SECRET_VALUE := by
  decide

/-- C3 amended: whenever the configured secret path does not exist (so
the read fails too), `secretInfo` does not fail: it returns the reduced
`exists:false` record, whose value field is the fixed fallback
placeholder when in test mode or when the secret root directory is
absent, and the unavailable sentinel otherwise. -/
theorem secretInfo_missing_path_reduced_record (env : Env) (fs : FS)
    (now : String) (c : SecretCache) (hex : fs.secretPathExists = false)
    (hread : fs.readFile = none) :
    (secretInfo env fs now c).1 =
      SecretInfoResult.fallback
        (if env.nodeEnvTest || !fs.rootExists then TEST_SECRET_VALUE
         else SECRET_NOT_AVAILABLE)
        env.secretPath := by
  unfold secretInfo getSecret readSecretFromDisk
  rcases hs : fs.statMtime with _ | mtime <;>
    cases hb : (env.nodeEnvTest || !fs.rootExists) <;> simp_all

/-- Witness for the amended C3 at the missing-file filesystem `fsNoFile`. -/
theorem secretInfo_missing_path_reduced_record_witness :
    (secretInfo envProd fsNoFile "t" initialCache).1 =
      SecretInfoResult.fallback
        (if envProd.nodeEnvTest || !fsNoFile.rootExists then TEST_SECRET_VALUE
         else SECRET_NOT_AVAILABLE)
        envProd.secretPath :=
  secretInfo_missing_path_reduced_record envProd fsNoFile "t" initialCache rfl rfl

/-- C4 counterexample: when `existsSync` sees the secret path but the
subsequent stat (and realpath) call fails — a real filesystem outcome,
e.g. the file vanishing between the two calls — the `/secret-info`
handler's `catch` answers with the `500` error response, a failure
surface beyond the sentinel value and the degraded status flags. -/
theorem secretInfo_stat_failure_error_response :
    (secretInfo envProd fsStatFails "t" initialCache).1 = SecretInfoResult.error := by
  decide

/-- C4 amended: `getSecret` absorbs every read failure into the
placeholder or the sentinel, `triggerReload` reports exactly the value
`getSecret` would return, and `secretInfo` produces the `500` error
response precisely when the path exists but the stat or realpath call
fails; in every other filesystem outcome no fault surfaces. -/
theorem failure_surface_policy_amended (env : Env) (fs : FS) (now : String)
    (c : SecretCache) :
    ((fs.readFile = none ∨ fs.statMtime = none) →
        (getSecret env fs now c).1 = TEST_SECRET_VALUE
        ∨ (getSecret env fs now c).1 = SECRET_NOT_AVAILABLE)
    ∧ (triggerReload env fs now c).1.newValue = (getSecret env fs now c).1
    ∧ ((secretInfo env fs now c).1 = SecretInfoResult.error ↔
        fs.secretPathExists = true ∧ (fs.statMtime = none ∨ fs.realPath = none)) := by
  unfold secretInfo triggerReload getSecret readSecretFromDisk
  rcases hr : fs.readFile with _ | content <;>
    rcases hs : fs.statMtime with _ | mtime <;>
      rcases hrp : fs.realPath with _ | rp <;>
        cases hpe : fs.secretPathExists <;>
          cases hb : (env.nodeEnvTest || !fs.rootExists) <;> simp_all

/-- Witness for the amended C4 at the empty filesystem `fsEmpty`. -/
theorem failure_surface_policy_amended_witness :
    (getSecret envProd fsEmpty "t" initialCache).1 = TEST_SECRET_VALUE
    ∨ (getSecret envProd fsEmpty "t" initialCache).1 = SECRET_NOT_AVAILABLE :=
  (failure_surface_policy_amended envProd fsEmpty "t" initialCache).1 (Or.inl rfl)

/-- C5 counterexample: with the secret path overridden to
`/mnt/secrets-store/renamed`, an event for the entry `renamed` — the base
filename of the configured path, qualifying per the claim — is ignored by
the code's filter, which compares against the hardcoded name
`my-secret`. -/
theorem eventFilter_ignores_configured_basename :
    specQualifies "/mnt/secrets-store/renamed" "renamed" = true
    ∧ eventQualifies "renamed" = false := by
  decide

/-- C5 amended: a debounced reload is scheduled if and only if the
event's entry name equals the hardcoded `my-secret` — the base filename
of the *default* secret path, so the two filters agree under the default
configuration — or the atomic-swap entry `..data`; every other event
leaves the cache untouched. -/
theorem eventFilter_hardcoded_names (name : String) (env : Env) (fs : FS)
    (now : String) (c : SecretCache) :
    (eventQualifies name = true ↔ (name = "my-secret" ∨ name = "..data"))
    ∧ eventQualifies name = specQualifies defaultSecretPath name
    ∧ (eventQualifies name = false → watchEventStep env fs now name c = c) := by
  refine ⟨?_, ?_, ?_⟩
  · simp [eventQualifies]
  · have h : baseName defaultSecretPath = "my-secret" := by decide
    simp [eventQualifies, specQualifies, h]
  · intro h
    simp [watchEventStep, h]

/-- Witness for the amended C5: a non-qualifying event has no effect. -/
theorem eventFilter_hardcoded_names_witness :
    watchEventStep envProd fsEmpty "t" "other-file" initialCache = initialCache :=
  (eventFilter_hardcoded_names "other-file" envProd fsEmpty "t" initialCache).2.2
    (by decide)

/-- C6 (confirmed): whenever the secret root directory is absent — so,
with the default layout, the secret path does not exist and the read
fails — `getSecret()` returns the fixed placeholder and `secretInfo()`
answers with the reduced `exists:false` record. -/
theorem fallback_consistency_root_absent (env : Env) (fs : FS) (now : String)
    (c : SecretCache) (hroot : fs.rootExists = false)
    (hread : fs.readFile = none) (hex : fs.secretPathExists = false) :
    (getSecret env fs now c).1 = TEST_SECRET_VALUE
    ∧ (secretInfo env fs now c).1 =
        SecretInfoResult.fallback TEST_SECRET_VALUE env.secretPath := by
  unfold secretInfo getSecret readSecretFromDisk
  rcases hs : fs.statMtime with _ | mtime <;> simp_all

/-- Witness for C6 at the empty filesystem `fsEmpty`. -/
theorem fallback_consistency_root_absent_witness :
    (getSecret envProd fsEmpty "t" initialCache).1 = TEST_SECRET_VALUE
    ∧ (secretInfo envProd fsEmpty "t" initialCache).1 =
        SecretInfoResult.fallback TEST_SECRET_VALUE envProd.secretPath :=
  fallback_consistency_root_absent envProd fsEmpty "t" initialCache rfl rfl rfl

/-- C7 (confirmed): running the watcher setup while `watcherActive` is
already true is a no-op (same state, so no second watch is installed and
the flag stays true); the setup is idempotent; and it never clears the
flag, so `watcherActive` transitions false→true at most once. -/
theorem setupFileWatcher_idempotent (env : Env) (fs : FS) (installOk : Bool)
    (s : WatcherState) :
    (s.cache.watcherActive = true → setupFileWatcher env fs installOk s = s)
    ∧ setupFileWatcher env fs installOk (setupFileWatcher env fs installOk s) =
        setupFileWatcher env fs installOk s
    ∧ ((setupFileWatcher env fs installOk s).cache.watcherActive = false →
        s.cache.watcherActive = false) := by
  unfold setupFileWatcher
  cases ha : s.cache.watcherActive <;> cases ht : env.nodeEnvTest <;>
    cases hro : fs.rootExists <;> cases installOk <;> simp_all

/-- Witness for C7: setup on an already-active state is the identity. -/
theorem setupFileWatcher_idempotent_witness :
    setupFileWatcher envProd fsNoFile true
        { cache := { initialCache with watcherActive := true }, installedWatches := 1 } =
      { cache := { initialCache with watcherActive := true }, installedWatches := 1 } :=
  (setupFileWatcher_idempotent envProd fsNoFile true
      { cache := { initialCache with watcherActive := true }, installedWatches := 1 }).1
    (by decide)

/-- When the read fails, the `/secret-info` handler leaves the cache
untouched in every branch. -/
theorem secretInfo_readFail_cache_unchanged (env : Env) (fs : FS)
    (now : String) (c : SecretCache)
    (h : fs.readFile = none ∨ fs.statMtime = none) :
    (secretInfo env fs now c).2 = c := by
  have hc := readFail_cache_unchanged env fs now c h
  unfold secretInfo getSecret
  cases hpe : fs.secretPathExists <;>
    rcases hs : fs.statMtime with _ | mtime <;>
      rcases hrp : fs.realPath with _ | rp <;> simp_all

/-- The watcher setup never touches the cached `value` or `lastUpdated`. -/
theorem setupFileWatcher_preserves_cache_values (env : Env) (fs : FS)
    (installOk : Bool) (s : WatcherState) :
    (setupFileWatcher env fs installOk s).cache.value = s.cache.value
    ∧ (setupFileWatcher env fs installOk s).cache.lastUpdated = s.cache.lastUpdated := by
  unfold setupFileWatcher
  cases ha : s.cache.watcherActive <;> cases ht : env.nodeEnvTest <;>
    cases hro : fs.rootExists <;> cases installOk <;> simp_all

/-- A single operation whose filesystem outcome makes every read fail
preserves the cached `value` and `lastUpdated`. -/
theorem stepOp_preserves_null (env : Env) (s : WatcherState) (op : Op)
    (h : opReadFails op = true) :
    (stepOp env s op).cache.value = s.cache.value
    ∧ (stepOp env s op).cache.lastUpdated = s.cache.lastUpdated := by
  cases op with
  | opGet fs now =>
      simp only [opReadFails, Bool.or_eq_true, Option.isNone_iff_eq_none] at h
      have hc := readFail_cache_unchanged env fs now s.cache h
      simp [stepOp, getSecret, hc]
  | opInfo fs now =>
      simp only [opReadFails, Bool.or_eq_true, Option.isNone_iff_eq_none] at h
      have hc := secretInfo_readFail_cache_unchanged env fs now s.cache h
      simp [stepOp, hc]
  | opReload fs now =>
      simp only [opReadFails, Bool.or_eq_true, Option.isNone_iff_eq_none] at h
      have hc := readFail_cache_unchanged env fs now s.cache h
      simp [stepOp, triggerReload, hc]
  | opSetup fs installOk =>
      exact setupFileWatcher_preserves_cache_values env fs installOk s
  | opWatchEvent fs now filename =>
      simp only [opReadFails, Bool.or_eq_true, Option.isNone_iff_eq_none] at h
      have hc := readFail_cache_unchanged env fs now s.cache h
      unfold stepOp watchEventStep
      cases eventQualifies filename <;> simp [hc]

/-- C9 (confirmed): as long as no read has ever succeeded — every
operation in the run, of any kind, saw a failing filesystem — the cached
`value` and `lastUpdated` remain `null` no matter how many reads,
reloads, info queries, watcher setups or watch events were served: the
placeholder and the sentinel are returned to callers but never stored
into the cache. -/
theorem cache_null_until_first_success (env : Env) (ops : List Op)
    (s : WatcherState) (hall : ∀ op ∈ ops, opReadFails op = true)
    (hv : s.cache.value = none) (hu : s.cache.lastUpdated = none) :
    (runOps env ops s).cache.value = none
    ∧ (runOps env ops s).cache.lastUpdated = none := by
  induction ops generalizing s with
  | nil => exact ⟨hv, hu⟩
  | cons op ops ih =>
      have h1 : opReadFails op = true := hall op (List.mem_cons_self op ops)
      have h2 := stepOp_preserves_null env s op h1
      have hrun : runOps env (op :: ops) s = runOps env ops (stepOp env s op) := rfl
      rw [hrun]
      exact ih (stepOp env s op) (fun o ho => hall o (List.mem_cons_of_mem op ho))
        (h2.1.trans hv) (h2.2.trans hu)

/-- Witness for C9: a run of failing operations of every kind from the
initial state leaves the cache null. -/
theorem cache_null_until_first_success_witness :
    (runOps envProd
        [Op.opGet fsEmpty "t1", Op.opReload fsNoFile "t2",
         Op.opInfo fsStatFails "t3", Op.opSetup fsNoFile true,
         Op.opWatchEvent fsNoFile "t4" "my-secret"]
        { cache := initialCache, installedWatches := 0 }).cache.value = none
    ∧ (runOps envProd
        [Op.opGet fsEmpty "t1", Op.opReload fsNoFile "t2",
         Op.opInfo fsStatFails "t3", Op.opSetup fsNoFile true,
         Op.opWatchEvent fsNoFile "t4" "my-secret"]
        { cache := initialCache, installedWatches := 0 }).cache.lastUpdated = none :=
  cache_null_until_first_success envProd
    [Op.opGet fsEmpty "t1", Op.opReload fsNoFile "t2",
     Op.opInfo fsStatFails "t3", Op.opSetup fsNoFile true,
     Op.opWatchEvent fsNoFile "t4" "my-secret"]
    { cache := initialCache, installedWatches := 0 } (by decide) rfl rfl
